import Mathlib

/-!
Verification development for the qmanager repository (ikmb/qmanager).

The Rust sources under src/ are shallowly embedded: pure functions become
Lean functions, file-system effects become explicit state passing over a
small model of the state file, and serde_json (de)serialization is modelled
at the level of JSON values (a `Json` inductive mirroring serde_json values;
the textual rendering/parsing layer of serde_json is taken as faithful).

The repository modules job_queue.rs and daemon.rs are not part of the
provided sources; the data types they define (Job, JobQueue, QueueState and
the queue operations) are modelled from the specification, as marked on the
individual declarations.
-/

namespace Qmanager

/-- A JSON value, mirroring the value space of serde_json (no floats occur
in any type serialized by this program). -/
inductive Json where
  | null : Json
  | bool (b : Bool) : Json
  | num (n : Int) : Json
  | str (s : String) : Json
  | arr (xs : List Json) : Json
  | obj (fields : List (String × Json)) : Json

/-- Modelled from the spec: job_queue.rs is not under src/. §3 QueueState:
`{Empty, Running, Stopping, Stopped}`, a closed sum of unit variants. -/
inductive QueueState where
  | Empty : QueueState
  | Running : QueueState
  | Stopping : QueueState
  | Stopped : QueueState
deriving DecidableEq

/-- Modelled from the spec: job_queue.rs is not under src/. §3 Job status:
terminal status is `Terminated` with a structured exit code, a normal exit
code or a signal number. -/
inductive ExitStatus where
  | normal (code : Int) : ExitStatus
  | signal (n : Nat) : ExitStatus
deriving DecidableEq

/-- Modelled from the spec: job_queue.rs is not under src/. §3 Job:
`status: {Queued, Running, Terminated{exit_status}}`. -/
inductive JobStatus where
  | Queued : JobStatus
  | Running : JobStatus
  | Terminated (exit_status : ExitStatus) : JobStatus
deriving DecidableEq

/-- Modelled from the spec: job_queue.rs is not under src/. §3 Job fields:
id, cmdline, expanded_cmdline, status, stdout, stderr, submitted, started,
finished, pid. Timestamps are modelled as natural numbers (seconds since
epoch). -/
structure Job where
  id : Nat
  cmdline : String
  expanded_cmdline : Option String
  status : JobStatus
  stdout : String
  stderr : String
  submitted : Nat
  started : Option Nat
  finished : Option Nat
  pid : Option Nat
deriving DecidableEq

/-- Modelled from the spec: job_queue.rs is not under src/. §3/§6 JobQueue:
three ordered sequences — queued (FIFO), running (0 or 1), finished — plus
`last_id`; the entire structure is the unit of snapshotting. -/
structure JobQueue where
  last_id : Nat
  queued : List Job
  running : Option Job
  finished : List Job
deriving DecidableEq

/-- Modelled from the spec: job_queue.rs is not under src/. `JobQueue::new`
as used in state.rs: an empty queue with the given last assigned id. -/
def JobQueue.new (lastId : Nat) : JobQueue :=
  { last_id := lastId, queued := [], running := none, finished := [] }

/-- Modelled from the spec: job_queue.rs is not under src/. §4.1 submit:
allocate `last_id += 1`, create a `Queued` job, append to queued; fails with
`BadAppkey` if the first token of the cmdline is not in the registry (the
registry lookup outcome is passed as `appkeyKnown`). -/
def JobQueue.submit (q : JobQueue) (cmdline : String) (appkeyKnown : Bool)
    (now : Nat) : Except String (JobQueue × Nat) :=
  if appkeyKnown then
    let newId := q.last_id + 1
    let job : Job :=
      { id := newId, cmdline := cmdline, expanded_cmdline := none,
        status := JobStatus.Queued, stdout := "", stderr := "",
        submitted := now, started := none, finished := none, pid := none }
    Except.ok ({ q with last_id := newId, queued := q.queued ++ [job] }, newId)
  else
    Except.error "BadAppkey"

/-- src/protocol.rs lines 26-55: a request by the client for the server. -/
inductive Request where
  | SubmitJob (cmdline : String) : Request
  | RemoveJob (id : Nat) : Request
  | KillJob (id : Nat) : Request
  | GetQueuedJobs : Request
  | GetFinishedJobs : Request
  | SetQueueState (s : QueueState) : Request
  | GetQueueState : Request
deriving DecidableEq

/-- src/protocol.rs lines 57-77: a response from the server to the client. -/
inductive Response where
  | SubmitJob (id : Nat) : Response
  | GetJobs (jobs : List Job) : Response
  | GetJob (job : Job) : Response
  | Error (msg : String) : Response
  | QueueState (s : Qmanager.QueueState) : Response
  | Ok : Response
deriving DecidableEq

/-! ### serde_json codec, at the JSON-value level

serde derives externally tagged encodings: a unit enum variant becomes the
JSON string of its name, a newtype variant becomes a one-field object
`{"Variant": payload}`; structs become objects with fields in declaration
order; `Option` becomes null / payload; `Vec` becomes an array; integers
become numbers. -/

def encodeNat (n : Nat) : Json := Json.num (Int.ofNat n)

def decodeNat : Json → Option Nat
  | Json.num (Int.ofNat n) => some n
  | _ => none

def decodeInt : Json → Option Int
  | Json.num n => some n
  | _ => none

def decodeString : Json → Option String
  | Json.str s => some s
  | _ => none

def encodeOpt (enc : α → Json) : Option α → Json
  | none => Json.null
  | some x => enc x

def decodeOpt (dec : Json → Option α) : Json → Option (Option α)
  | Json.null => some none
  | j => (dec j).map some

def decodeList (dec : Json → Option α) : List Json → Option (List α)
  | [] => some []
  | x :: xs =>
    match dec x with
    | none => none
    | some a => (decodeList dec xs).map (a :: ·)

def encodeQueueState : QueueState → Json
  | QueueState.Empty => Json.str "Empty"
  | QueueState.Running => Json.str "Running"
  | QueueState.Stopping => Json.str "Stopping"
  | QueueState.Stopped => Json.str "Stopped"

def decodeQueueState : Json → Option QueueState
  | Json.str "Empty" => some QueueState.Empty
  | Json.str "Running" => some QueueState.Running
  | Json.str "Stopping" => some QueueState.Stopping
  | Json.str "Stopped" => some QueueState.Stopped
  | _ => none

def encodeExitStatus : ExitStatus → Json
  | ExitStatus.normal code => Json.obj [("Normal", Json.num code)]
  | ExitStatus.signal n => Json.obj [("Signal", encodeNat n)]

def decodeExitStatus : Json → Option ExitStatus
  | Json.obj [("Normal", v)] => (decodeInt v).map ExitStatus.normal
  | Json.obj [("Signal", v)] => (decodeNat v).map ExitStatus.signal
  | _ => none

def encodeJobStatus : JobStatus → Json
  | JobStatus.Queued => Json.str "Queued"
  | JobStatus.Running => Json.str "Running"
  | JobStatus.Terminated es => Json.obj [("Terminated", encodeExitStatus es)]

def decodeJobStatus : Json → Option JobStatus
  | Json.str "Queued" => some JobStatus.Queued
  | Json.str "Running" => some JobStatus.Running
  | Json.obj [("Terminated", v)] => (decodeExitStatus v).map JobStatus.Terminated
  | _ => none

def encodeJob (j : Job) : Json :=
  Json.obj
    [("id", encodeNat j.id),
     ("cmdline", Json.str j.cmdline),
     ("expanded_cmdline", encodeOpt Json.str j.expanded_cmdline),
     ("status", encodeJobStatus j.status),
     ("stdout", Json.str j.stdout),
     ("stderr", Json.str j.stderr),
     ("submitted", encodeNat j.submitted),
     ("started", encodeOpt encodeNat j.started),
     ("finished", encodeOpt encodeNat j.finished),
     ("pid", encodeOpt encodeNat j.pid)]

def decodeJob : Json → Option Job
  | Json.obj [("id", i), ("cmdline", c), ("expanded_cmdline", e),
              ("status", st), ("stdout", o), ("stderr", er),
              ("submitted", su), ("started", sa), ("finished", f),
              ("pid", p)] => do
    let id ← decodeNat i
    let cmdline ← decodeString c
    let expanded ← decodeOpt decodeString e
    let status ← decodeJobStatus st
    let stdout ← decodeString o
    let stderr ← decodeString er
    let submitted ← decodeNat su
    let started ← decodeOpt decodeNat sa
    let finished ← decodeOpt decodeNat f
    let pid ← decodeOpt decodeNat p
    some { id := id, cmdline := cmdline, expanded_cmdline := expanded,
           status := status, stdout := stdout, stderr := stderr,
           submitted := submitted, started := started, finished := finished,
           pid := pid }
  | _ => none

def encodeJobQueue (q : JobQueue) : Json :=
  Json.obj
    [("last_id", encodeNat q.last_id),
     ("queued", Json.arr (q.queued.map encodeJob)),
     ("running", encodeOpt encodeJob q.running),
     ("finished", Json.arr (q.finished.map encodeJob))]

def decodeJobQueue : Json → Option JobQueue
  | Json.obj [("last_id", l), ("queued", Json.arr qs), ("running", r),
              ("finished", Json.arr fs)] => do
    let lastId ← decodeNat l
    let queued ← decodeList decodeJob qs
    let running ← decodeOpt decodeJob r
    let finished ← decodeList decodeJob fs
    some { last_id := lastId, queued := queued, running := running,
           finished := finished }
  | _ => none

/-- src/protocol.rs: the serde encoding of `Request` (externally tagged). -/
def encodeRequest : Request → Json
  | Request.SubmitJob s => Json.obj [("SubmitJob", Json.str s)]
  | Request.RemoveJob id => Json.obj [("RemoveJob", encodeNat id)]
  | Request.KillJob id => Json.obj [("KillJob", encodeNat id)]
  | Request.GetQueuedJobs => Json.str "GetQueuedJobs"
  | Request.GetFinishedJobs => Json.str "GetFinishedJobs"
  | Request.SetQueueState s => Json.obj [("SetQueueState", encodeQueueState s)]
  | Request.GetQueueState => Json.str "GetQueueState"

/-- src/protocol.rs: the serde decoding of `Request`. -/
def decodeRequest : Json → Option Request
  | Json.str "GetQueuedJobs" => some Request.GetQueuedJobs
  | Json.str "GetFinishedJobs" => some Request.GetFinishedJobs
  | Json.str "GetQueueState" => some Request.GetQueueState
  | Json.obj [("SubmitJob", v)] => (decodeString v).map Request.SubmitJob
  | Json.obj [("RemoveJob", v)] => (decodeNat v).map Request.RemoveJob
  | Json.obj [("KillJob", v)] => (decodeNat v).map Request.KillJob
  | Json.obj [("SetQueueState", v)] =>
    (decodeQueueState v).map Request.SetQueueState
  | _ => none

/-- src/protocol.rs: the serde encoding of `Response` (externally tagged). -/
def encodeResponse : Response → Json
  | Response.SubmitJob id => Json.obj [("SubmitJob", encodeNat id)]
  | Response.GetJobs jobs => Json.obj [("GetJobs", Json.arr (jobs.map encodeJob))]
  | Response.GetJob job => Json.obj [("GetJob", encodeJob job)]
  | Response.Error msg => Json.obj [("Error", Json.str msg)]
  | Response.QueueState s => Json.obj [("QueueState", encodeQueueState s)]
  | Response.Ok => Json.str "Ok"

/-- src/protocol.rs: the serde decoding of `Response`. -/
def decodeResponse : Json → Option Response
  | Json.str "Ok" => some Response.Ok
  | Json.obj [("SubmitJob", v)] => (decodeNat v).map Response.SubmitJob
  | Json.obj [("GetJobs", Json.arr vs)] =>
    (decodeList decodeJob vs).map Response.GetJobs
  | Json.obj [("GetJob", v)] => (decodeJob v).map Response.GetJob
  | Json.obj [("Error", v)] => (decodeString v).map Response.Error
  | Json.obj [("QueueState", v)] => (decodeQueueState v).map Response.QueueState
  | _ => none

/-- The discriminator tag of an externally tagged serde encoding: the string
itself for a unit variant, the single key for a newtype variant. -/
def jsonTag : Json → Option String
  | Json.str s => some s
  | Json.obj ((k, _) :: _) => some k
  | _ => none

/-! ### src/state.rs: program state (snapshot) store

The state file is modelled by its observable condition: missing,
present-but-unreadable (a read error), present but not parseable as a
JobQueue, or a well-formed JSON value. -/

/-- The condition of the state file on disk. `malformed` stands for content
that is not valid JSON at all; `wellFormed j` for content that is the JSON
value `j` (which may still fail to deserialize as a JobQueue). -/
inductive StateFileContent where
  | missing : StateFileContent
  | unreadable : StateFileContent
  | malformed : StateFileContent
  | wellFormed (j : Json) : StateFileContent

/-- src/state.rs line 32: job ids are incremented before they are assigned,
so the default last job id zero makes the first submitted job get id 1. -/
def DEFAULT_STATE_LAST_ID : Nat := 0

/-- src/state.rs line 61-62: `fs::read_to_string(..).unwrap_or("")` followed
by `serde_json::from_str`. A missing or unreadable file yields the empty
string, which does not parse; otherwise the content is deserialized as a
JobQueue. -/
def parseStateFile : StateFileContent → Option JobQueue
  | StateFileContent.missing => none
  | StateFileContent.unreadable => none
  | StateFileContent.malformed => none
  | StateFileContent.wellFormed j => decodeJobQueue j

/-- src/state.rs lines 60-69, `State::load_queue`: parse the state file;
on any failure warn and return `JobQueue::new(DEFAULT_STATE_LAST_ID)`. -/
def loadQueue (c : StateFileContent) : JobQueue :=
  match parseStateFile c with
  | some q => q
  | none => JobQueue.new DEFAULT_STATE_LAST_ID

/-- Whether `State::load_queue` emits its warning (the else-branch of the
`if let Ok(q)` in src/state.rs lines 63-68). -/
def loadQueueWarns (c : StateFileContent) : Bool :=
  (parseStateFile c).isNone

/-- `State::load_queue` as a step on the file-system state: it only reads,
returning the loaded queue, the warning flag, and the (unchanged) file
content. -/
def loadQueueStep (c : StateFileContent) :
    JobQueue × Bool × StateFileContent :=
  (loadQueue c, loadQueueWarns c, c)

/-- The error value of the failing `File::create` in `State::save`. -/
inductive IoErr where
  | createFailed : IoErr
deriving DecidableEq

/-- src/state.rs lines 72-87, `State::save`: attempt to create the state
file (`canCreate` is the outcome of `File::create`); on failure log and
return the error, leaving the file as it was; on success write the
serialization of the queue. The borrowed in-memory queue is returned
unchanged alongside. -/
def save (canCreate : Bool) (q : JobQueue) (c : StateFileContent) :
    Except IoErr Unit × StateFileContent × JobQueue :=
  if canCreate then
    (Except.ok (), StateFileContent.wellFormed (encodeJobQueue q), q)
  else
    (Except.error IoErr.createFailed, c, q)

/-- Modelled from the spec: the claim that an existing-but-unreadable state
file is a fatal startup failure, per §7: "Fatal (daemon exits non-zero):
... failure to load the state file when it exists but is unreadable
(distinct from missing)". Missing and unparseable content yield the default
queue; unreadable content yields an error (a non-zero exit). -/
def loadQueueFatalSpec : StateFileContent → Except Unit JobQueue
  | StateFileContent.missing => Except.ok (JobQueue.new DEFAULT_STATE_LAST_ID)
  | StateFileContent.unreadable => Except.error ()
  | StateFileContent.malformed => Except.ok (JobQueue.new DEFAULT_STATE_LAST_ID)
  | StateFileContent.wellFormed j =>
    match decodeJobQueue j with
    | some q => Except.ok q
    | none => Except.ok (JobQueue.new DEFAULT_STATE_LAST_ID)

/-! ### src/clicommands.rs: client-side request handlers

Each handler posts a request and matches on the decoded response. The
match arms are embedded as total functions into small outcome types whose
`panicked` constructor stands for the `panic!("Unexpected response: ...")`
arm. -/

/-- Outcome of the response match in `handle_submit`
(src/clicommands.rs lines 80-84). -/
inductive SubmitOutcome where
  | printedSubmitted (id : Nat) : SubmitOutcome
  | printedError (msg : String) : SubmitOutcome
  | panicked : SubmitOutcome
deriving DecidableEq

/-- src/clicommands.rs lines 80-84: the response match of `handle_submit`. -/
def handleSubmitMatch : Response → SubmitOutcome
  | Response.SubmitJob id => SubmitOutcome.printedSubmitted id
  | Response.Error s => SubmitOutcome.printedError s
  | _ => SubmitOutcome.panicked

/-- Outcome of the response match in `handle_remove`
(src/clicommands.rs lines 112-119). -/
inductive RemoveOutcome where
  | removed (job : Job) : RemoveOutcome
  | removeFailed (msg : String) : RemoveOutcome
  | panicked : RemoveOutcome
deriving DecidableEq

/-- src/clicommands.rs lines 112-119: the response match of
`handle_remove`. `removed` is the `Ok(job)` arm, `removeFailed` the
`Err(..)` arm after printing the message. -/
def handleRemoveMatch : Response → RemoveOutcome
  | Response.GetJob job => RemoveOutcome.removed job
  | Response.Error s => RemoveOutcome.removeFailed s
  | _ => RemoveOutcome.panicked

/-- src/clicommands.rs lines 226-235, the loop body of `handle_cleanup`:
the job ids for which a `RemoveJob` request is issued, in order — those
finished jobs whose `finished` timestamp is `Some t` with
`t < oldest_time`. -/
def cleanupRequests (oldest : Nat) : List Job → List Nat
  | [] => []
  | j :: rest =>
    match j.finished with
    | some t =>
      if t < oldest then j.id :: cleanupRequests oldest rest
      else cleanupRequests oldest rest
    | none => cleanupRequests oldest rest

/-- src/clicommands.rs lines 222-235: the `jobs_removed` counter of
`handle_cleanup`. `removeOk id` is whether the nested `handle_remove` call
for job `id` returns `Ok` (server-side success). -/
def cleanupRemoved (removeOk : Nat → Bool) (oldest : Nat) : List Job → Nat
  | [] => 0
  | j :: rest =>
    match j.finished with
    | some t =>
      if t < oldest then
        (if removeOk j.id then 1 else 0) + cleanupRemoved removeOk oldest rest
      else cleanupRemoved removeOk oldest rest
    | none => cleanupRemoved removeOk oldest rest

/-- src/clicommands.rs lines 190-239, `handle_cleanup`: given the decoded
response to `GetFinishedJobs`, the current time and `max_age` (seconds),
returns the list of job ids for which `RemoveJob` was issued and the
returned count of removed jobs. `oldest_time = now - max_age`
(line 213; `SystemTime` subtraction, defined when `max_age ≤ now`).
A response that is not `GetJobs` leaves the counter at zero. -/
def handleCleanup (resp : Response) (removeOk : Nat → Bool)
    (now maxAge : Nat) : List Nat × Nat :=
  match resp with
  | Response.GetJobs jobs =>
    (cleanupRequests (now - maxAge) jobs,
     cleanupRemoved removeOk (now - maxAge) jobs)
  | _ => ([], 0)

/-- A finished job whose `finished` timestamp is `Some t` with
`t < oldest` — the condition under which `handle_cleanup` issues a
`RemoveJob` (src/clicommands.rs lines 227-228). -/
def jobExpired (oldest : Nat) (j : Job) : Bool :=
  match j.finished with
  | some t => t < oldest
  | none => false

/-! ### src/main.rs: client construction -/

/-- The TLS-relevant configuration of a `reqwest::Client`. -/
structure HttpClient where
  acceptInvalidCerts : Bool
  acceptInvalidHostnames : Bool
  rootCertificates : List String
deriving DecidableEq

/-- `reqwest::Client::new()`: library defaults validate certificates and
hostnames and add no extra root certificate. -/
def reqwestClientNew : HttpClient :=
  { acceptInvalidCerts := false, acceptInvalidHostnames := false,
    rootCertificates := [] }

/-- src/main.rs line 94: the URL built by `create_client`. -/
def mkUrl (host : String) (port : Nat) : String :=
  "http://" ++ host ++ ":" ++ toString port ++ "/"

/-- src/main.rs lines 74-97, `create_client`: with `insecure` a plain
default client; otherwise the CA file is read (`ca.unwrap()` panics when no
CA is supplied, modelled as `none`; `caPem` is the file content) and a
client is built with the CA added as root certificate and with
`danger_accept_invalid_certs(true)` and
`danger_accept_invalid_hostnames(true)`. -/
def createClient (insecure : Bool) (caPem : Option String) (host : String)
    (port : Nat) : Option (HttpClient × String) :=
  match insecure, caPem with
  | true, _ => some (reqwestClientNew, mkUrl host port)
  | false, none => none
  | false, some pem =>
    some ({ acceptInvalidCerts := true, acceptInvalidHostnames := true,
            rootCertificates := [pem] }, mkUrl host port)

/-! ### src/cliopts.rs: command-line options and config merging -/

/-- src/cliopts.rs line 32. -/
def DEFAULT_PORT : Nat := 1337

/-- src/cliopts.rs line 36. -/
def DEFAULT_HOST : String := "localhost"

/-- src/cliopts.rs line 39. -/
def DEFAULT_STATE : String := "/var/lib/qmanager/qmanager.state"

/-- src/cliopts.rs lines 83-143, `OptCommand`: the subcommand. Paths are
modelled as strings and `humantime::Duration` as seconds. -/
inductive OptCommand where
  | daemon (foreground : Bool) (cert : Option String) (key : Option String)
      (pidfile : Option String) (notifyUrl : Option String) : OptCommand
  | stop : OptCommand
  | start : OptCommand
  | status : OptCommand
  | submit (cmdline : String) : OptCommand
  | remove (jobId : Nat) : OptCommand
  | kill (jobId : Nat) : OptCommand
  | cleanup (maxAge : Nat) : OptCommand
deriving DecidableEq

/-- src/cliopts.rs lines 41-81, `Opt`: parsed command-line options.
Unset defaults on the command line: `ca = None`, `insecure = false`,
`host = ""`, `port = 0`, `dump_json = false`, `loglevel = ""`,
`state_file = None`. -/
structure Opt where
  ca : Option String
  insecure : Bool
  host : String
  port : Nat
  dump_json : Bool
  loglevel : String
  config : String
  appkeys : List (String × String)
  cmd : OptCommand
  state_file : Option String
deriving DecidableEq

/-- The config file as read by the `config` crate: each getter either finds
a value of the right type or fails. `appkeys` is the table required by
`merge_config` (its absence panics via `.expect`, so it is modelled as
always present). -/
structure Config where
  ca : Option String
  insecure : Option Bool
  port : Option Int
  host : Option String
  dump_json : Option Bool
  state_file : Option String
  cert : Option String
  key : Option String
  pidfile : Option String
  notify_url : Option String
  loglevel : Option String
  appkeys : List (String × String)
deriving DecidableEq

/-- `conf.get_int("port") .. as u16`: an i64 truncated to u16. -/
def castU16 (i : Int) : Nat := (i % 65536).toNat

/-- `HashMap::insert` over the association-list model of the appkey map:
replaces any previous binding of the key. -/
def insertAppkey (m : List (String × String)) (kv : String × String) :
    List (String × String) :=
  m.filter (fun p => p.1 ≠ kv.1) ++ [kv]

/-- src/cliopts.rs lines 150-157: if `--insecure` is not present on the
command line, fill `ca` from the config when unset and or-in the
`insecure` flag of the config. -/
def mergeSecurity (o : Opt) (conf : Config) : Opt :=
  if !o.insecure then
    let o2 := if o.ca.isNone then { o with ca := conf.ca } else o
    { o2 with insecure := o2.insecure || conf.insecure.getD false }
  else o

/-- src/cliopts.rs lines 159-165: the TCP port, filled from the config
(truncated to u16) or `DEFAULT_PORT` when the command line left it 0. -/
def mergePort (o : Opt) (conf : Config) : Opt :=
  { o with
    port := if o.port == 0 then castU16 (conf.port.getD (Int.ofNat DEFAULT_PORT))
            else o.port }

/-- src/cliopts.rs lines 167-172: the host name, filled when empty. -/
def mergeHost (o : Opt) (conf : Config) : Opt :=
  if o.host.isEmpty then { o with host := conf.host.getD DEFAULT_HOST } else o

/-- src/cliopts.rs lines 174-177: the `dump-json` debug flag. -/
def mergeDumpJson (o : Opt) (conf : Config) : Opt :=
  if !o.dump_json then { o with dump_json := conf.dump_json.getD false } else o

/-- src/cliopts.rs lines 179-185: the state file location, filled from the
config or `DEFAULT_STATE` when absent on the command line. -/
def mergeStateFile (o : Opt) (conf : Config) : Opt :=
  if o.state_file.isNone then
    { o with state_file := some (conf.state_file.getD DEFAULT_STATE) }
  else o

/-- src/cliopts.rs lines 187-211: daemon-specific options, each filled from
the config when absent on the command line. -/
def mergeDaemonOpts (o : Opt) (conf : Config) : Opt :=
  match o.cmd with
  | OptCommand.daemon fg c k p n =>
    let c2 := if c.isNone then conf.cert else c
    let k2 := if k.isNone then conf.key else k
    let p2 := if p.isNone then conf.pidfile else p
    let n2 := if n.isNone then conf.notify_url else n
    { o with cmd := OptCommand.daemon fg c2 k2 p2 n2 }
  | _ => o

/-- src/cliopts.rs lines 213-218: every appkey of the config table is
inserted into the option map. -/
def mergeAppkeys (o : Opt) (conf : Config) : Opt :=
  { o with appkeys := conf.appkeys.foldl insertAppkey o.appkeys }

/-- src/cliopts.rs lines 220-225: the log level, filled when empty. -/
def mergeLoglevel (o : Opt) (conf : Config) : Opt :=
  if o.loglevel.isEmpty then
    { o with loglevel := conf.loglevel.getD "Info" }
  else o

/-- src/cliopts.rs lines 145-226, `Opt::merge_config`: CLI options take
precedence; config-file values only fill fields still at their unset
defaults. The statements of the source body, in order. -/
def mergeConfig (o : Opt) (conf : Config) : Opt :=
  mergeLoglevel
    (mergeAppkeys
      (mergeDaemonOpts
        (mergeStateFile
          (mergeDumpJson
            (mergeHost (mergePort (mergeSecurity o conf) conf) conf)
            conf)
          conf)
        conf)
      conf)
    conf

theorem decodeExitStatus_encodeExitStatus (es : ExitStatus) :
    decodeExitStatus (encodeExitStatus es) = some es := by
  cases es <;> rfl

theorem decodeJobStatus_encodeJobStatus (st : JobStatus) :
    decodeJobStatus (encodeJobStatus st) = some st := by
  rcases st with _ | _ | (c | n) <;> rfl

theorem decodeJob_encodeJob (j : Job) : decodeJob (encodeJob j) = some j := by
  rcases j with ⟨id, c, e, st, o, er, su, sa, f, p⟩
  rcases e with _ | e <;> rcases sa with _ | sa <;> rcases f with _ | f <;>
    rcases p with _ | p <;> rcases st with _ | _ | (c2 | n2) <;> rfl

theorem decodeList_encode (dec : Json → Option α) (enc : α → Json)
    (h : ∀ x, dec (enc x) = some x) (xs : List α) :
    decodeList dec (xs.map enc) = some xs := by
  induction xs with
  | nil => rfl
  | cons x xs ih => simp [decodeList, h, ih]

theorem decodeOpt_encodeOpt_job (o : Option Job) :
    decodeOpt decodeJob (encodeOpt encodeJob o) = some o := by
  cases o with
  | none => rfl
  | some j =>
    show Option.map some (decodeJob (encodeJob j)) = some (some j)
    rw [decodeJob_encodeJob j]
    rfl

theorem decodeJobQueue_encodeJobQueue (q : JobQueue) :
    decodeJobQueue (encodeJobQueue q) = some q := by
  rcases q with ⟨l, qs, r, fs⟩
  have hq := decodeList_encode decodeJob encodeJob decodeJob_encodeJob qs
  have hf := decodeList_encode decodeJob encodeJob decodeJob_encodeJob fs
  have hr := decodeOpt_encodeOpt_job r
  simp [encodeJobQueue, decodeJobQueue, hq, hf, hr, decodeNat, encodeNat,
    Option.bind]

theorem decodeRequest_encodeRequest (r : Request) :
    decodeRequest (encodeRequest r) = some r := by
  cases r <;> try rfl
  case SetQueueState s => cases s <;> rfl

theorem decodeResponse_encodeResponse (x : Response) :
    decodeResponse (encodeResponse x) = some x := by
  cases x with
  | GetJobs jobs =>
    have h := decodeList_encode decodeJob encodeJob decodeJob_encodeJob jobs
    simp [encodeResponse, decodeResponse, h]
  | GetJob j =>
    simp [encodeResponse, decodeResponse, decodeJob_encodeJob]
  | QueueState s => cases s <;> rfl
  | _ => rfl

/-! ### Claim theorems -/

/-- C1: Snapshot round-trip: for every valid JobQueue value Q, saving Q with
State::save (with the file creatable) and then loading with
State::load_queue yields a queue equal to Q. -/
theorem save_load_roundtrip (q : JobQueue) (c : StateFileContent) :
    loadQueue (save true q c).2.1 = q := by
  simp [save, loadQueue, parseStateFile, decodeJobQueue_encodeJobQueue]

/-- C2: Codec round-trip: decoding the JSON encoding of every Request and
every Response value yields the value again. -/
theorem protocol_roundtrip :
    (∀ r : Request, decodeRequest (encodeRequest r) = some r) ∧
    (∀ x : Response, decodeResponse (encodeResponse x) = some x) :=
  ⟨decodeRequest_encodeRequest, decodeResponse_encodeResponse⟩

/-- C4 counterexample: on an existing-but-unreadable state file the code
proceeds with the default queue (no error path exists in `load_queue`),
exactly where the spec sentence demands a fatal non-zero exit (the
spec-modelled `loadQueueFatalSpec` errors). -/
theorem unreadable_state_not_fatal_cex :
    loadQueue StateFileContent.unreadable =
      JobQueue.new DEFAULT_STATE_LAST_ID ∧
    loadQueueFatalSpec StateFileContent.unreadable = Except.error () :=
  ⟨rfl, rfl⟩

/-- C4 amended: if the state file exists but cannot be read, State::load_queue
behaves exactly as for a missing file: it warns and returns the default
empty queue with last_id = 0, leaving the file untouched; the daemon
proceeds rather than exiting. -/
theorem unreadable_state_defaults :
    loadQueueStep StateFileContent.unreadable =
      (JobQueue.new DEFAULT_STATE_LAST_ID, true, StateFileContent.unreadable) :=
  rfl

/-- C3: loading the program state is total and never errors: a missing
state file and non-decodable content both yield the default empty queue
with last_id = 0 together with the warning, the state file is not
overwritten, and on the default queue the first submitted job is assigned
id 1. -/
theorem load_queue_total_default :
    DEFAULT_STATE_LAST_ID = 0 ∧
    loadQueueStep StateFileContent.missing =
      (JobQueue.new 0, true, StateFileContent.missing) ∧
    loadQueueStep StateFileContent.malformed =
      (JobQueue.new 0, true, StateFileContent.malformed) ∧
    (∀ j, decodeJobQueue j = none →
      loadQueueStep (StateFileContent.wellFormed j) =
        (JobQueue.new 0, true, StateFileContent.wellFormed j)) ∧
    (∀ cmdline now, ∃ q,
      (JobQueue.new DEFAULT_STATE_LAST_ID).submit cmdline true now =
        Except.ok (q, 1)) := by
  refine ⟨rfl, rfl, rfl, ?_, ?_⟩
  · intro j h
    simp [loadQueueStep, loadQueue, loadQueueWarns, parseStateFile, h,
      JobQueue.new, DEFAULT_STATE_LAST_ID]
  · intro cmdline now
    exact ⟨_, rfl⟩

/-- C3 witness: the hypotheses of `load_queue_total_default` discharged at
the concrete undecodable JSON value `null` and a concrete submission. -/
theorem load_queue_total_default_witness :
    decodeJobQueue Json.null = none ∧
    loadQueueStep (StateFileContent.wellFormed Json.null) =
      (JobQueue.new 0, true, StateFileContent.wellFormed Json.null) ∧
    ∃ q, (JobQueue.new DEFAULT_STATE_LAST_ID).submit "echo hello" true 42 =
      Except.ok (q, 1) :=
  ⟨rfl, load_queue_total_default.2.2.2.1 Json.null rfl,
   load_queue_total_default.2.2.2.2 "echo hello" 42⟩

theorem cleanupRequests_eq (oldest : Nat) (jobs : List Job) :
    cleanupRequests oldest jobs =
      (jobs.filter (jobExpired oldest)).map Job.id := by
  induction jobs with
  | nil => rfl
  | cons j rest ih =>
    cases hf : j.finished with
    | none => simp [cleanupRequests, jobExpired, hf, ih]
    | some t =>
      by_cases hlt : t < oldest <;>
        simp [cleanupRequests, jobExpired, hf, hlt, ih]

theorem cleanupRemoved_eq (removeOk : Nat → Bool) (oldest : Nat)
    (jobs : List Job) :
    cleanupRemoved removeOk oldest jobs =
      ((jobs.filter (jobExpired oldest)).filter
        (fun j => removeOk j.id)).length := by
  induction jobs with
  | nil => rfl
  | cons j rest ih =>
    cases hf : j.finished with
    | none => simp [cleanupRemoved, jobExpired, hf, ih]
    | some t =>
      by_cases hlt : t < oldest <;>
        by_cases hok : removeOk j.id = true <;>
          simp [cleanupRemoved, jobExpired, hf, hlt, hok, ih, Nat.add_comm]

/-- C5: for every list of finished jobs returned by GetFinishedJobs and
every max_age (with `max_age ≤ now` so that the SystemTime subtraction is
defined), handle_cleanup issues RemoveJob exactly for the jobs whose
finished timestamp is Some t with t strictly earlier than now − max_age,
and returns the count of those whose removal succeeded. -/
theorem handle_cleanup_spec (jobs : List Job) (removeOk : Nat → Bool)
    (now maxAge : Nat) (h : maxAge ≤ now) :
    handleCleanup (Response.GetJobs jobs) removeOk now maxAge =
      ((jobs.filter (jobExpired (now - maxAge))).map Job.id,
       ((jobs.filter (jobExpired (now - maxAge))).filter
         (fun j => removeOk j.id)).length) := by
  simp [handleCleanup, cleanupRequests_eq, cleanupRemoved_eq]

/-- A terminated job with the given id and finished timestamp, used to
instantiate the cleanup scenario. -/
def mkFinishedJob (id fin : Nat) : Job :=
  { id := id, cmdline := "", expanded_cmdline := none,
    status := JobStatus.Terminated (ExitStatus.normal 0), stdout := "",
    stderr := "", submitted := fin, started := some fin,
    finished := some fin, pid := none }

/-- C5 witness: five finished jobs aged t, t−1h, t−2d, t−3d, t−10d (seconds,
with now = t = 1000000) and max_age = 2d = 172800 s: RemoveJob is issued for
exactly the two jobs strictly older than now − 2d and both removals count;
the other three jobs are untouched. -/
theorem handle_cleanup_witness :
    (172800 : Nat) ≤ 1000000 ∧
    handleCleanup
      (Response.GetJobs
        [mkFinishedJob 1 1000000, mkFinishedJob 2 996400,
         mkFinishedJob 3 827200, mkFinishedJob 4 740800,
         mkFinishedJob 5 136000])
      (fun _ => true) 1000000 172800 = ([4, 5], 2) := by
  refine ⟨by norm_num, ?_⟩
  rw [handle_cleanup_spec _ _ _ _ (by norm_num)]
  rfl

/-- C6: the JSON encoding of every Request variant carries exactly one of
the seven request discriminator tags, and every Response variant one of the
six response tags. -/
theorem wire_tags :
    (∀ r : Request, ∃ t,
      ((encodeRequest r = Json.str t) ∨
        ∃ v, encodeRequest r = Json.obj [(t, v)]) ∧
      t ∈ ["SubmitJob", "RemoveJob", "KillJob", "GetQueuedJobs",
           "GetFinishedJobs", "SetQueueState", "GetQueueState"]) ∧
    (∀ x : Response, ∃ t,
      ((encodeResponse x = Json.str t) ∨
        ∃ v, encodeResponse x = Json.obj [(t, v)]) ∧
      t ∈ ["SubmitJob", "GetJobs", "GetJob", "Error", "QueueState", "Ok"]) := by
  constructor
  · intro r
    cases r <;>
      first
        | exact ⟨_, Or.inl rfl, by simp⟩
        | exact ⟨_, Or.inr ⟨_, rfl⟩, by simp⟩
  · intro x
    cases x <;>
      first
        | exact ⟨_, Or.inl rfl, by simp⟩
        | exact ⟨_, Or.inr ⟨_, rfl⟩, by simp⟩

/-- C7: when the state file cannot be created or opened for writing,
State::save returns an Err value (no panic), the file content is left as it
was, and the borrowed in-memory queue is unchanged. -/
theorem save_failure_nonfatal (q : JobQueue) (c : StateFileContent) :
    save false q c = (Except.error IoErr.createFailed, c, q) :=
  rfl

/-- C8: a response of an unexpected shape drives the client request
handlers into the panic arm: Response::Ok delivered to handle_submit and
Response::SubmitJob delivered to handle_remove both hit
`panic!("Unexpected response: ...")` instead of yielding an error value. -/
theorem unexpected_response_panics :
    handleSubmitMatch Response.Ok = SubmitOutcome.panicked ∧
    handleRemoveMatch (Response.SubmitJob 1) = RemoveOutcome.panicked :=
  ⟨rfl, rfl⟩

/-- C9: every invocation of create_client with insecure = false and a CA
file supplied builds a client configured to accept invalid TLS certificates
and invalid hostnames. -/
theorem create_client_accepts_invalid_tls (pem host : String) (port : Nat) :
    ∃ cl, createClient false (some pem) host port = some (cl, mkUrl host port) ∧
      cl.acceptInvalidCerts = true ∧ cl.acceptInvalidHostnames = true :=
  ⟨_, rfl, rfl, rfl⟩

/-! ### merge_config characterization lemmas -/

theorem mergeSecurity_eq (o : Opt) (conf : Config) :
    mergeSecurity o conf =
      { o with
        ca := if !o.insecure then (if o.ca.isNone then conf.ca else o.ca)
              else o.ca,
        insecure := if !o.insecure then o.insecure || conf.insecure.getD false
                    else o.insecure } := by
  unfold mergeSecurity
  split <;> [skip; rfl]
  split <;> rfl

theorem mergeHost_eq (o : Opt) (conf : Config) :
    mergeHost o conf =
      { o with host := if o.host.isEmpty then conf.host.getD DEFAULT_HOST
                       else o.host } := by
  unfold mergeHost; split <;> rfl

theorem mergeDumpJson_eq (o : Opt) (conf : Config) :
    mergeDumpJson o conf =
      { o with dump_json := if !o.dump_json then conf.dump_json.getD false
                            else o.dump_json } := by
  unfold mergeDumpJson; split <;> rfl

theorem mergeStateFile_eq (o : Opt) (conf : Config) :
    mergeStateFile o conf =
      { o with
        state_file := if o.state_file.isNone then
            some (conf.state_file.getD DEFAULT_STATE)
          else o.state_file } := by
  unfold mergeStateFile; split <;> rfl

theorem mergeLoglevel_eq (o : Opt) (conf : Config) :
    mergeLoglevel o conf =
      { o with loglevel := if o.loglevel.isEmpty then conf.loglevel.getD "Info"
                           else o.loglevel } := by
  unfold mergeLoglevel; split <;> rfl

/-- The effect of `mergeDaemonOpts` on the subcommand alone. -/
def mergeDaemonCmd : OptCommand → Config → OptCommand
  | OptCommand.daemon fg c k p n, conf =>
    OptCommand.daemon fg (if c.isNone then conf.cert else c)
      (if k.isNone then conf.key else k)
      (if p.isNone then conf.pidfile else p)
      (if n.isNone then conf.notify_url else n)
  | c, _ => c

theorem mergeDaemonOpts_eq (o : Opt) (conf : Config) :
    mergeDaemonOpts o conf = { o with cmd := mergeDaemonCmd o.cmd conf } := by
  rcases o with ⟨ca, insec, host, port, dj, ll, cfg, ak, cmd, sf⟩
  cases cmd <;> rfl

theorem mergeConfig_ca (o : Opt) (conf : Config) :
    (mergeConfig o conf).ca =
      if !o.insecure then (if o.ca.isNone then conf.ca else o.ca)
      else o.ca := by
  simp [mergeConfig, mergeLoglevel_eq, mergeAppkeys, mergeDaemonOpts_eq,
    mergeStateFile_eq, mergeDumpJson_eq, mergeHost_eq, mergePort,
    mergeSecurity_eq]

theorem mergeConfig_insecure (o : Opt) (conf : Config) :
    (mergeConfig o conf).insecure =
      if !o.insecure then o.insecure || conf.insecure.getD false
      else o.insecure := by
  simp [mergeConfig, mergeLoglevel_eq, mergeAppkeys, mergeDaemonOpts_eq,
    mergeStateFile_eq, mergeDumpJson_eq, mergeHost_eq, mergePort,
    mergeSecurity_eq]

theorem mergeConfig_port (o : Opt) (conf : Config) :
    (mergeConfig o conf).port =
      if o.port == 0 then castU16 (conf.port.getD (Int.ofNat DEFAULT_PORT))
      else o.port := by
  simp [mergeConfig, mergeLoglevel_eq, mergeAppkeys, mergeDaemonOpts_eq,
    mergeStateFile_eq, mergeDumpJson_eq, mergeHost_eq, mergePort,
    mergeSecurity_eq]

theorem mergeConfig_host (o : Opt) (conf : Config) :
    (mergeConfig o conf).host =
      if o.host.isEmpty then conf.host.getD DEFAULT_HOST else o.host := by
  simp [mergeConfig, mergeLoglevel_eq, mergeAppkeys, mergeDaemonOpts_eq,
    mergeStateFile_eq, mergeDumpJson_eq, mergeHost_eq, mergePort,
    mergeSecurity_eq]

theorem mergeConfig_dump_json (o : Opt) (conf : Config) :
    (mergeConfig o conf).dump_json =
      if !o.dump_json then conf.dump_json.getD false else o.dump_json := by
  simp [mergeConfig, mergeLoglevel_eq, mergeAppkeys, mergeDaemonOpts_eq,
    mergeStateFile_eq, mergeDumpJson_eq, mergeHost_eq, mergePort,
    mergeSecurity_eq]

theorem mergeConfig_state_file (o : Opt) (conf : Config) :
    (mergeConfig o conf).state_file =
      if o.state_file.isNone then some (conf.state_file.getD DEFAULT_STATE)
      else o.state_file := by
  simp [mergeConfig, mergeLoglevel_eq, mergeAppkeys, mergeDaemonOpts_eq,
    mergeStateFile_eq, mergeDumpJson_eq, mergeHost_eq, mergePort,
    mergeSecurity_eq]

theorem mergeConfig_loglevel (o : Opt) (conf : Config) :
    (mergeConfig o conf).loglevel =
      if o.loglevel.isEmpty then conf.loglevel.getD "Info"
      else o.loglevel := by
  simp [mergeConfig, mergeLoglevel_eq, mergeAppkeys, mergeDaemonOpts_eq,
    mergeStateFile_eq, mergeDumpJson_eq, mergeHost_eq, mergePort,
    mergeSecurity_eq]

theorem mergeConfig_cmd (o : Opt) (conf : Config) :
    (mergeConfig o conf).cmd = mergeDaemonCmd o.cmd conf := by
  simp [mergeConfig, mergeLoglevel_eq, mergeAppkeys, mergeDaemonOpts_eq,
    mergeStateFile_eq, mergeDumpJson_eq, mergeHost_eq, mergePort,
    mergeSecurity_eq]

/-- C10: command-line precedence in Opt::merge_config. Every field already
set on the command line — port ≠ 0, non-empty host, non-empty loglevel,
insecure = true, dump_json = true, and any Some-valued ca, state_file, and
daemon cert/key/pidfile/notify_url — is left unchanged by the merge. -/
theorem merge_config_cli_precedence (o : Opt) (conf : Config) :
    ((o.port ≠ 0 → (mergeConfig o conf).port = o.port) ∧
     (o.host ≠ "" → (mergeConfig o conf).host = o.host) ∧
     (o.loglevel ≠ "" → (mergeConfig o conf).loglevel = o.loglevel) ∧
     (o.insecure = true → (mergeConfig o conf).insecure = true) ∧
     (o.dump_json = true → (mergeConfig o conf).dump_json = true)) ∧
    ((∀ x, o.ca = some x → (mergeConfig o conf).ca = some x) ∧
     (∀ x, o.state_file = some x → (mergeConfig o conf).state_file = some x) ∧
     (∀ fg c k p n, o.cmd = OptCommand.daemon fg c k p n →
       ∃ c2 k2 p2 n2,
         (mergeConfig o conf).cmd = OptCommand.daemon fg c2 k2 p2 n2 ∧
         (∀ x, c = some x → c2 = some x) ∧
         (∀ x, k = some x → k2 = some x) ∧
         (∀ x, p = some x → p2 = some x) ∧
         (∀ x, n = some x → n2 = some x))) := by
  refine ⟨⟨?_, ?_, ?_, ?_, ?_⟩, ?_, ?_, ?_⟩
  · intro h
    simp [mergeConfig_port, h]
  · intro h
    rw [mergeConfig_host, if_neg]
    simp [String.isEmpty_iff, h]
  · intro h
    rw [mergeConfig_loglevel, if_neg]
    simp [String.isEmpty_iff, h]
  · intro h
    simp [mergeConfig_insecure, h]
  · intro h
    simp [mergeConfig_dump_json, h]
  · intro x h
    cases hi : o.insecure <;> simp [mergeConfig_ca, h, hi]
  · intro x h
    simp [mergeConfig_state_file, h]
  · intro fg c k p n h
    refine ⟨if c.isNone then conf.cert else c,
            if k.isNone then conf.key else k,
            if p.isNone then conf.pidfile else p,
            if n.isNone then conf.notify_url else n, ?_, ?_, ?_, ?_, ?_⟩
    · rw [mergeConfig_cmd, h]; rfl
    · intro x hx; simp [hx]
    · intro x hx; simp [hx]
    · intro x hx; simp [hx]
    · intro x hx; simp [hx]

/-- A fully-set command line, used to instantiate the merge theorem. -/
def cliOptFullySet : Opt :=
  { ca := some "/ca.pem", insecure := true, host := "example.org",
    port := 8080, dump_json := true, loglevel := "Debug",
    config := "/etc/qmanager.conf", appkeys := [],
    cmd := OptCommand.daemon false (some "/c.pem") (some "/k.pem")
      (some "/run/q.pid") (some "http://n/"),
    state_file := some "/var/lib/q.state" }

/-- A config file differing from `cliOptFullySet` on every field. -/
def confAllDifferent : Config :=
  { ca := some "/other-ca.pem", insecure := some false, port := some 9999,
    host := some "other.host", dump_json := some false,
    state_file := some "/other.state", cert := some "/other-c.pem",
    key := some "/other-k.pem", pidfile := some "/other.pid",
    notify_url := some "http://other/", loglevel := some "Error",
    appkeys := [("echo", "/bin/echo")] }

/-- C10 witness: `merge_config_cli_precedence` applied to a fully-set
command line and a config file that differs on every field, with every
hypothesis discharged: the merge changes none of the set fields. -/
theorem merge_config_cli_precedence_witness :
    (mergeConfig cliOptFullySet confAllDifferent).port = 8080 ∧
    (mergeConfig cliOptFullySet confAllDifferent).host = "example.org" ∧
    (mergeConfig cliOptFullySet confAllDifferent).loglevel = "Debug" ∧
    (mergeConfig cliOptFullySet confAllDifferent).insecure = true ∧
    (mergeConfig cliOptFullySet confAllDifferent).dump_json = true ∧
    (mergeConfig cliOptFullySet confAllDifferent).ca = some "/ca.pem" ∧
    (mergeConfig cliOptFullySet confAllDifferent).state_file =
      some "/var/lib/q.state" ∧
    ∃ c2 k2 p2 n2,
      (mergeConfig cliOptFullySet confAllDifferent).cmd =
        OptCommand.daemon false c2 k2 p2 n2 ∧
      c2 = some "/c.pem" ∧ k2 = some "/k.pem" ∧ p2 = some "/run/q.pid" ∧
      n2 = some "http://n/" := by
  have h := merge_config_cli_precedence cliOptFullySet confAllDifferent
  obtain ⟨c2, k2, p2, n2, hcmd, hc, hk, hp, hn⟩ :=
    h.2.2.2 false (some "/c.pem") (some "/k.pem") (some "/run/q.pid")
      (some "http://n/") rfl
  exact ⟨h.1.1 (by decide), h.1.2.1 (by decide), h.1.2.2.1 (by decide),
    h.1.2.2.2.1 rfl, h.1.2.2.2.2 rfl, h.2.1 "/ca.pem" rfl,
    h.2.2.1 "/var/lib/q.state" rfl,
    c2, k2, p2, n2, hcmd, hc _ rfl, hk _ rfl, hp _ rfl, hn _ rfl⟩

end Qmanager
